import Mathlib

/-!
Shallow embedding of the AI-NEWS research-workflow engine
(src/models.py, src/routes.py, src/workflow_manager.py, src/ai_agents.py).

Statuses are the literal strings the Python code stores in the `status`
columns.  Machine-level concerns (SQLAlchemy sessions, logging, Flask
rendering) are dropped; every persisted field the claims talk about is kept.
-/

namespace AINews

/-- models.py `ResearchProject`: the fields the workflow reads or writes.
`status` is one of "initialized", "analyzing", "interviewing", "reviewing",
"completed", "stopped", "error". -/
structure Project where
  topic : String
  status : String
  final_report : Option String
  human_notes : Option String
  deriving DecidableEq, Repr

/-- models.py `Analyst`: fields used by the workflow. -/
structure Analyst where
  project_id : Nat
  name : String
  specialization : String
  research_focus : String
  status : String
  deriving DecidableEq, Repr

/-- models.py `Expert`: global row, keyed in practice by (name, expertise_area).
The table declares no uniqueness on that pair.  Row ids are list positions. -/
structure Expert where
  name : String
  expertise_area : String
  background : String
  credibility_score : ℚ
  deriving DecidableEq, Repr

/-- One answer record produced by ai_agents.conduct_interview. -/
structure Response where
  answer : String
  sources : List String
  credibility_notes : String
  deriving DecidableEq, Repr

/-- The structured result of ai_agents.analyze_credibility. -/
structure CredResult where
  overall_credibility : ℚ
  credibility_assessment : String
  fake_news_indicators : List String
  verified_facts : List String
  recommendations : List String
  deriving DecidableEq, Repr

/-- The derived `insights` digest built in workflow_manager line 186. -/
structure Insights where
  key_insights : List String
  sources : List String
  credibility_notes : List String
  deriving DecidableEq, Repr

/-- models.py `Interview`.  The text columns hold serialized artifacts; we
keep the structured values (serialization is a bijection we elide). -/
structure Interview where
  project_id : Nat
  analyst_id : Nat
  expert_id : Nat
  questions : Option (List String)
  responses : Option (List Response)
  insights : Option Insights
  credibility_assessment : Option CredResult
  fake_news_flags : Option (List String)
  status : String
  completed_at : Option Nat
  deriving DecidableEq, Repr

/-- routes.py `human_intervention` (lines 61-82): the pure effect on the
project record of one POST with stripped form fields `notes` and `action`.
Notes are written whenever non-empty; `approve` checks for status
"reviewing"; `stop` writes "stopped" with no status check; `modify` and
unknown actions change nothing beyond the notes. -/
def human_intervention (p : Project) (notes action : String) : Project :=
  let p1 := if notes ≠ "" then { p with human_notes := some notes } else p
  if action = "approve" then
    if p1.status = "reviewing" then { p1 with status := "completed" } else p1
  else if action = "stop" then
    { p1 with status := "stopped" }
  else
    p1

/-- Count of interviews whose status column equals "completed". -/
def completedCount (statuses : List String) : Nat :=
  (statuses.filter (fun s => s = "completed")).length

/-- routes.py `api_project_status` (line 156): the `total_progress` field,
`min(100, completed / max(1, total) * 100)` over the project's interviews,
given their status strings. -/
def api_total_progress (statuses : List String) : ℚ :=
  min 100 ((completedCount statuses : ℚ) / (max 1 statuses.length : ℚ) * 100)

/-- Outcome of `json.loads(interview.credibility_assessment)` followed by
`.get('overall_credibility')` in ai_agents.generate_final_report
(lines 255-259): the text column may be null or empty (`absent`), may fail
to parse (`malformed`), or parses to a dict whose `overall_credibility`
entry is either missing (`parsed none`) or a number (`parsed (some s)`). -/
inductive CredParse where
  | absent : CredParse
  | malformed : CredParse
  | parsed : Option ℚ → CredParse
  deriving DecidableEq, Repr

/-- One loop iteration of the credibility accumulation in
ai_agents.generate_final_report (lines 247-261): the running pair is
(total_credibility, credible_count); an interview contributes only when its
assessment parsed and `.get('overall_credibility')` is truthy, i.e. the key
is present with a non-zero value (Python treats 0.0 as falsy). -/
def credStep (acc : ℚ × Nat) (c : CredParse) : ℚ × Nat :=
  match c with
  | CredParse.parsed (some s) => if s ≠ 0 then (acc.1 + s, acc.2 + 1) else acc
  | _ => acc

/-- ai_agents.generate_final_report line 279: `avg_credibility =
total_credibility / credible_count if credible_count > 0 else 0.8`. -/
def avg_credibility (assessments : List CredParse) : ℚ :=
  let r := assessments.foldl credStep (0, 0)
  if r.2 > 0 then r.1 / (r.2 : ℚ) else 0.8

/-- The scores the code actually averages: present, non-zero
`overall_credibility` of successfully parsed assessments. -/
def codeScores (assessments : List CredParse) : List ℚ :=
  assessments.filterMap fun c =>
    match c with
    | CredParse.parsed (some s) => if s ≠ 0 then some s else none
    | _ => none

/-- Modelled from the spec's words, for comparison with `avg_credibility`:
the aggregate equals the arithmetic mean of the `overall_credibility`
values of exactly those interviews whose assessment parsed successfully,
with fallback 0.8 when none did. -/
def spec_aggregate_credibility (assessments : List CredParse) : ℚ :=
  let scores := assessments.filterMap fun c =>
    match c with
    | CredParse.parsed (some s) => some s
    | _ => none
  if scores.length > 0 then scores.sum / (scores.length : ℚ) else 0.8

/-- The structured payload the content generator returns for one expert
(ai_agents.generate_experts output items, defaults already applied). -/
structure ExpertData where
  name : String
  expertise_area : String
  background : String
  credibility_score : ℚ
  deriving DecidableEq, Repr

/-- ai_agents.generate_experts (lines 53-92): the whole body sits in a
try/except; on any generation or parse failure it logs and returns `[]`,
otherwise it returns the parsed roster.  `gen` is the outcome of the
underlying model call and JSON parse. -/
def generate_experts (gen : Except String (List ExpertData)) : List ExpertData :=
  match gen with
  | Except.ok experts => experts
  | Except.error _ => []

/-- The three generation outcomes one interview run consumes, as observed at
the call sites inside workflow_manager._conduct_single_interview's try
block.  `Except.error` stands for an exception raised at that step (the
call itself or the lazy attribute loads feeding it). -/
structure InterviewGen where
  genQ : Except String (List String)
  genA : Except String (List Response)
  genC : Except String CredResult

/-- workflow_manager._conduct_single_interview (lines 150-210): mark the
interview in_progress, then run questions, answers, credibility; on success
persist all artifacts plus the derived insights digest and mark completed;
any exception inside the try block lands in the handler, which sets status
"error" and returns (never re-raises). -/
def conduct_single_interview (iv : Interview) (g : InterviewGen) (now : Nat) :
    Interview :=
  let iv1 := { iv with status := "in_progress" }
  match g.genQ with
  | Except.error _ => { iv1 with status := "error" }
  | Except.ok questions =>
    match g.genA with
    | Except.error _ => { iv1 with status := "error" }
    | Except.ok responses =>
      match g.genC with
      | Except.error _ => { iv1 with status := "error" }
      | Except.ok cred =>
        { iv1 with
          questions := some questions
          responses := some responses
          insights := some
            { key_insights := responses.map (fun r => r.answer)
              sources := (responses.map (fun r => r.sources)).flatten
              credibility_notes := responses.map (fun r => r.credibility_notes) }
          credibility_assessment := some cred
          fake_news_flags := some cred.fake_news_indicators
          status := "completed"
          completed_at := some now }

/-- workflow_manager line 116: `Expert.query.filter_by(name, expertise_area)
.first()` — the id (row position) of the first expert with that key. -/
def lookupExpert (experts : List Expert) (name area : String) : Option Nat :=
  experts.findIdx? (fun e => e.name = name ∧ e.expertise_area = area)

/-- workflow_manager._conduct_analyst_interviews (lines 97-148): run
`generate_experts`; for each returned expert datum look up or insert the
Expert row, create a scheduled Interview, and conduct it synchronously;
afterwards mark the analyst completed.  Returns the updated expert table,
the interviews this worker created (in order), and the updated analyst.
`ports i` supplies the generation outcomes of the i-th interview. -/
def conduct_analyst_interviews (experts : List Expert)
    (project_id analyst_id : Nat) (analyst : Analyst)
    (gen : Except String (List ExpertData)) (ports : Nat → InterviewGen)
    (now : Nat) : List Expert × List Interview × Analyst :=
  let experts_data := generate_experts gen
  let result := experts_data.foldl
    (fun (acc : List Expert × List Interview) ed =>
      let es := acc.1
      let ivs := acc.2
      let found := lookupExpert es ed.name ed.expertise_area
      let es2 := match found with
        | some _ => es
        | none => es ++ [{ name := ed.name, expertise_area := ed.expertise_area,
                           background := ed.background,
                           credibility_score := ed.credibility_score }]
      let expert_id := match found with
        | some i => i
        | none => es.length
      let iv0 : Interview :=
        { project_id := project_id, analyst_id := analyst_id,
          expert_id := expert_id, questions := none, responses := none,
          insights := none, credibility_assessment := none,
          fake_news_flags := none, status := "scheduled", completed_at := none }
      let iv1 := conduct_single_interview iv0 (ports ivs.length) now
      (es2, ivs ++ [iv1]))
    (experts, [])
  (result.1, result.2, { analyst with status := "completed" })

/-- One analyst worker's expert get-or-create, split into its two shared-store
accesses as executed by workflow_manager lines 116-129: first the lookup
(`filter_by(...).first()`), then — only if the lookup missed — the insert
with `flush()` handing back the new row id.  `found` is `none` before the
lookup ran; `obs` records the expert id the worker ends up using. -/
structure RaceWorker where
  data : ExpertData
  found : Option (Option Nat)
  obs : Option Nat
  deriving DecidableEq, Repr

/-- Advance one worker by one atomic store access: its pending lookup, or
its conditional insert / fetch of the looked-up row. -/
def stepWorker (experts : List Expert) (w : RaceWorker) :
    List Expert × RaceWorker :=
  match w.found with
  | none =>
    (experts, { w with found := some (lookupExpert experts w.data.name w.data.expertise_area) })
  | some r =>
    match w.obs with
    | some _ => (experts, w)
    | none =>
      match r with
      | some i => (experts, { w with obs := some i })
      | none =>
        (experts ++ [{ name := w.data.name, expertise_area := w.data.expertise_area,
                       background := w.data.background,
                       credibility_score := w.data.credibility_score }],
         { w with obs := some experts.length })

/-- Run two concurrent workers over the shared expert table under an explicit
interleaving: `true` steps worker `a`, `false` steps worker `b`. -/
def runSchedule (experts : List Expert) (a b : RaceWorker) :
    List Bool → List Expert × RaceWorker × RaceWorker
  | [] => (experts, a, b)
  | s :: rest =>
    if s then
      let r := stepWorker experts a
      runSchedule r.1 r.2 b rest
    else
      let r := stepWorker experts b
      runSchedule r.1 a r.2 rest

/-- Number of stored Expert rows carrying a given (name, expertise_area) key. -/
def countKey (experts : List Expert) (name area : String) : Nat :=
  (experts.filter (fun e => e.name = name ∧ e.expertise_area = area)).length

/-- workflow_manager._wait_for_human_review (lines 212-229): poll the
project status up to `fuel` times, leaving the loop early once the status
is no longer "reviewing"; the function performs no writes, so with no
external writer the project it returns is the project it read. -/
def wait_for_human_review (p : Project) (fuel : Nat) : Project :=
  match fuel with
  | 0 => p
  | n + 1 => if p.status ≠ "reviewing" then p else wait_for_human_review p n

/-- workflow_manager._generate_final_report (lines 231-275): gather the
project's completed interviews; with none, mark completed and return;
otherwise run the report generator — `gen` is `some r` when
ai_system.generate_final_report returned a truthy report serialized as `r`,
`none` when it returned a falsy value or the try block raised — and in
every branch end with status "completed", writing `final_report` only on a
truthy report. -/
def generate_final_report_wf (p : Project) (interviews : List Interview)
    (gen : Option String) : Project :=
  let completed := interviews.filter (fun iv => iv.status = "completed")
  if completed.isEmpty then
    { p with status := "completed" }
  else
    match gen with
    | some r => { p with final_report := some r, status := "completed" }
    | none => { p with status := "completed" }

/-- Step 4 of workflow_manager.start_research_workflow (lines 77-84): unless
the reviewer stopped the project, generate the final report and then set
status "completed".  The second component is the trace of the project's
status at each successive commit of this step (its value before the step,
after _generate_final_report's commit, after the final commit). -/
def finish_after_review (p : Project) (interviews : List Interview)
    (gen : Option String) : Project × List String :=
  if p.status ≠ "stopped" then
    let p1 := generate_final_report_wf p interviews gen
    let p2 := { p1 with status := "completed" }
    (p2, [p.status, p1.status, p2.status])
  else
    (p, [p.status])

/-- Number of steps in a status trace that enter "completed" from a
different status. -/
def completedTransitions : List String → Nat
  | a :: b :: rest =>
    (if a ≠ "completed" ∧ b = "completed" then 1 else 0)
      + completedTransitions (b :: rest)
  | _ => 0

/-- routes.py `generate_report` (lines 108-142): regenerate the report for a
project.  Outside statuses "completed"/"reviewing" it redirects without
writing; with no completed interviews it redirects without writing;
otherwise it runs the generator (`gen` as in `generate_final_report_wf`,
with `none` also covering the route's own except path) and stores a truthy
report.  The route never touches `status`. -/
def generate_report_route (p : Project) (interviews : List Interview)
    (gen : Option String) : Project :=
  if p.status ≠ "completed" ∧ p.status ≠ "reviewing" then p
  else
    let completed := interviews.filter (fun iv => iv.status = "completed")
    if completed.isEmpty then p
    else
      match gen with
      | some r => { p with final_report := some r }
      | none => p

/-- One analyst datum as returned by ai_agents.generate_analysts, with the
`.get` defaults of workflow_manager lines 40-42 already applied. -/
structure AnalystData where
  name : String
  specialization : String
  research_focus : String
  deriving DecidableEq, Repr

/-- ai_agents.generate_analysts (lines 15-51): like `generate_experts`,
failures are swallowed into an empty roster. -/
def generate_analysts (gen : Except String (List AnalystData)) :
    List AnalystData :=
  match gen with
  | Except.ok analysts => analysts
  | Except.error _ => []

/-- The whole store the workflow touches.  Projects are keyed by id;
analyst, expert and interview ids are list positions. -/
structure DB where
  projects : List (Nat × Project)
  analysts : List Analyst
  experts : List Expert
  interviews : List Interview
  deriving DecidableEq, Repr

/-- Generation outcomes feeding one whole workflow run: the analyst roster,
each analyst's expert roster, each analyst's per-interview generations, and
the final report. -/
structure WorkflowPorts where
  analystsGen : Except String (List AnalystData)
  expertsGen : Nat → Except String (List ExpertData)
  interviewGen : Nat → Nat → InterviewGen
  reportGen : Option String

/-- workflow_manager.start_research_workflow (lines 17-95): look up the
project — a missing id only logs and returns — then run the four stages:
create the analyst team (status "analyzing"), run every analyst worker and
join (status "interviewing"; the thread fan-out is determinized to its join
order, analysts in creation order), enter "reviewing" and wait on the
review gate, then finish via `finish_after_review`. -/
def start_research_workflow (db : DB) (project_id : Nat)
    (ports : WorkflowPorts) (fuel now : Nat) : DB :=
  match db.projects.find? (fun pr => pr.1 = project_id) with
  | none => db
  | some pr =>
    let p := { pr.2 with status := "analyzing" }
    let analysts_data := generate_analysts ports.analystsGen
    let new_analysts := analysts_data.map (fun ad =>
      { project_id := project_id, name := ad.name,
        specialization := ad.specialization,
        research_focus := ad.research_focus, status := "assigned" : Analyst })
    let base := db.analysts.length
    let p := { p with status := "interviewing" }
    let joined := (List.range new_analysts.length).foldl
      (fun (acc : List Expert × List Interview × List Analyst) i =>
        match new_analysts.get? i with
        | none => acc
        | some a =>
          let r := conduct_analyst_interviews acc.1 project_id (base + i) a
            (ports.expertsGen i) (fun k => ports.interviewGen i k) now
          (r.1, acc.2.1 ++ r.2.1, acc.2.2 ++ [r.2.2]))
      (db.experts, [], [])
    let p := { p with status := "reviewing" }
    let p := wait_for_human_review p fuel
    let project_interviews := joined.2.1
    let finished := finish_after_review p project_interviews ports.reportGen
    { projects := db.projects.map (fun q =>
        if q.1 = project_id then (q.1, finished.1) else q),
      analysts := db.analysts ++ joined.2.2,
      experts := joined.1,
      interviews := db.interviews ++ joined.2.1 }


/-- A concrete project sitting in status "analyzing" with no report and no
notes, used as a test vector. -/
def sampleAnalyzing : Project :=
  { topic := "Tema", status := "analyzing", final_report := none, human_notes := none }

/-- A concrete project sitting in status "reviewing" with no report and no
notes, used as a test vector. -/
def sampleReviewing : Project :=
  { topic := "Tema", status := "reviewing", final_report := none, human_notes := none }

/-- A concrete analyst in its initial status "assigned". -/
def sampleAnalyst : Analyst :=
  { project_id := 1, name := "Ana", specialization := "Economia",
    research_focus := "fiscal", status := "assigned" }

/-- Interview generation outcomes where every step raises. -/
def failGen : InterviewGen :=
  { genQ := Except.error "GenerationError", genA := Except.error "GenerationError",
    genC := Except.error "GenerationError" }

/-- A concrete expert datum shared by two racing analyst workers. -/
def raceData : ExpertData :=
  { name := "Dr. Vera", expertise_area := "Economia Internacional",
    background := "Universidad", credibility_score := 9/10 }

/-- A racing worker about to get-or-create `raceData`. -/
def raceWorker : RaceWorker := { data := raceData, found := none, obs := none }

/-- A concrete interview row in status "completed". -/
def sampleCompletedInterview : Interview :=
  { project_id := 1, analyst_id := 0, expert_id := 0, questions := none,
    responses := none, insights := none, credibility_assessment := none,
    fake_news_flags := none, status := "completed", completed_at := some 5 }

/-- The empty store. -/
def emptyDB : DB := { projects := [], analysts := [], experts := [], interviews := [] }

/-- Workflow ports where every generation fails. -/
def nullPorts : WorkflowPorts :=
  { analystsGen := Except.error "GenerationError",
    expertsGen := fun _ => Except.error "GenerationError",
    interviewGen := fun _ _ => failGen,
    reportGen := none }

/-! Theorems.  Helper lemmas come first; the claim theorems follow, one per
claim of the specification review. -/

/-- Unfolding lemma for the credibility accumulation: folding `credStep`
computes the sum and count of the scores the code lets through. -/
theorem credStep_foldl (l : List CredParse) (a : ℚ) (n : Nat) :
    l.foldl credStep (a, n) = (a + (codeScores l).sum, n + (codeScores l).length) := by
  induction l generalizing a n with
  | nil => simp [codeScores]
  | cons c t ih =>
    cases c with
    | absent => simpa [codeScores, credStep] using ih a n
    | malformed => simpa [codeScores, credStep] using ih a n
    | parsed o =>
      cases o with
      | none => simpa [codeScores, credStep] using ih a n
      | some s =>
        by_cases hs : s = 0
        · simpa [codeScores, credStep, hs] using ih a n
        · have hcs : codeScores (CredParse.parsed (some s) :: t) = s :: codeScores t := by
            simp [codeScores, hs]
          have hstep : credStep (a, n) (CredParse.parsed (some s)) = (a + s, n + 1) := by
            simp [credStep, hs]
          rw [List.foldl_cons, hstep, ih, hcs]
          simp only [List.sum_cons, List.length_cons, Prod.mk.injEq]
          constructor
          · ring
          · omega

/-- A list of rationals that all lie in [0, 1] sums to something between 0
and its length. -/
theorem sum_bounds (l : List ℚ) (h : ∀ s ∈ l, 0 ≤ s ∧ s ≤ 1) :
    0 ≤ l.sum ∧ l.sum ≤ (l.length : ℚ) := by
  induction l with
  | nil => simp
  | cons x t ih =>
    have hx := h x (by simp)
    have ht := ih (fun s hs => h s (by simp [hs]))
    simp only [List.sum_cons, List.length_cons]
    push_cast
    constructor
    · linarith [hx.1, ht.1]
    · linarith [hx.2, ht.2]

/-- Closed form of `avg_credibility` in terms of the contributing scores. -/
theorem avg_credibility_eq (l : List CredParse) :
    avg_credibility l =
      (if 0 < (codeScores l).length
        then (codeScores l).sum / ((codeScores l).length : ℚ) else 0.8) := by
  simp only [avg_credibility, credStep_foldl l 0 0, zero_add, Nat.zero_add]

/-- Every branch of the workflow report step ends with status "completed". -/
theorem generate_final_report_wf_status (p : Project) (ivs : List Interview)
    (gen : Option String) : (generate_final_report_wf p ivs gen).status = "completed" := by
  rcases gen with _ | r
  all_goals
    simp only [generate_final_report_wf]
    split
  all_goals rfl

/-- C1 (amended): the workflow's report step always ends with the project
completed; it writes `final_report` only when at least one completed
interview exists and the generator returned a truthy report; and the manual
report route leaves the project untouched unless its status is "completed"
or "reviewing".  A completed project may thus carry a null report, and a
non-null report may coexist with status "reviewing". -/
theorem final_report_writes (p : Project) (ivs : List Interview)
    (gen : Option String) :
    (generate_final_report_wf p ivs gen).status = "completed" ∧
    ((generate_final_report_wf p ivs gen).final_report ≠ p.final_report →
      ivs.filter (fun iv => iv.status = "completed") ≠ [] ∧ gen ≠ none) ∧
    (p.status ≠ "completed" → p.status ≠ "reviewing" →
      generate_report_route p ivs gen = p) := by
  refine ⟨generate_final_report_wf_status p ivs gen, ?_, ?_⟩
  · intro h
    by_cases hc : (ivs.filter (fun iv => iv.status = "completed")).isEmpty
    · exfalso
      exact h (by simp [generate_final_report_wf, hc])
    · rcases gen with _ | r
      · exfalso
        exact h (by simp [generate_final_report_wf, hc])
      · exact ⟨by simpa [List.isEmpty_iff] using hc, by simp⟩
  · intro h1 h2
    simp [generate_report_route, h1, h2]

/-- C1 witness: the amended statement evaluated at concrete inputs — a
reviewing project with no interviews, one with a completed interview and a
successful generation, and an analyzing project hitting the route. -/
theorem final_report_writes_witness :
    (generate_final_report_wf sampleReviewing [] none).status = "completed" ∧
    ([sampleCompletedInterview].filter (fun iv => iv.status = "completed") ≠ [] ∧
      (some "informe" : Option String) ≠ none) ∧
    generate_report_route sampleAnalyzing [] none = sampleAnalyzing :=
  ⟨(final_report_writes sampleReviewing [] none).1,
   (final_report_writes sampleReviewing [sampleCompletedInterview]
      (some "informe")).2.1 (by decide),
   (final_report_writes sampleAnalyzing [] none).2.2 (by decide) (by decide)⟩

/-- C1 counterexample: `_generate_final_report` on a reviewing project with
zero completed interviews ends completed with `final_report` still null, so
"final_report is non-null iff status = completed" fails on the code. -/
theorem completed_without_report :
    (generate_final_report_wf sampleReviewing [] none).status = "completed" ∧
    (generate_final_report_wf sampleReviewing [] none).final_report = none ∧
    ¬((generate_final_report_wf sampleReviewing [] none).final_report ≠ none ↔
      (generate_final_report_wf sampleReviewing [] none).status = "completed") := by
  decide

/-- C2: the Expert table has no unique constraint on (name, expertise_area)
and the worker does an unguarded lookup-then-insert, so the interleaving in
which both workers look up before either inserts leaves two rows for the
same key and the two workers observe different expert ids — the
get-or-create is not idempotent under concurrency, contradicting the claim. -/
theorem expert_get_or_create_race :
    countKey (runSchedule [] raceWorker raceWorker [true, false, true, false]).1
        "Dr. Vera" "Economia Internacional" = 2 ∧
    (runSchedule [] raceWorker raceWorker [true, false, true, false]).2.1.obs = some 0 ∧
    (runSchedule [] raceWorker raceWorker [true, false, true, false]).2.2.obs = some 1 := by
  decide

/-- C3 (amended): the stop action sets status "stopped" unconditionally,
from any status; approve moves "reviewing" to "completed" and is a no-op
elsewhere; modify never changes the status. -/
theorem human_intervention_status_cases (p : Project) (notes : String) :
    (human_intervention p notes "stop").status = "stopped" ∧
    (human_intervention p notes "approve").status =
      (if p.status = "reviewing" then "completed" else p.status) ∧
    (human_intervention p notes "modify").status = p.status := by
  by_cases hn : notes = "" <;> by_cases hr : p.status = "reviewing" <;>
    simp [human_intervention, hn, hr]

/-- C3 counterexample: a stop request against a project in status
"analyzing" changes its status to "stopped", so "a stop request issued
outside reviewing does not change the status" fails on the code. -/
theorem stop_changes_status_outside_reviewing :
    sampleAnalyzing.status = "analyzing" ∧
    (human_intervention sampleAnalyzing "" "stop").status = "stopped" ∧
    (human_intervention sampleAnalyzing "" "stop").status ≠ sampleAnalyzing.status := by
  decide

/-- C4 (amended): the aggregate credibility score equals the arithmetic
mean over the interviews whose assessment parsed successfully AND whose
`overall_credibility` is present and non-zero (Python truthiness); it is
exactly 0.8 when no interview contributes; and it lies in [0, 1] provided
every contributing score does. -/
theorem avg_credibility_spec (l : List CredParse) :
    (codeScores l ≠ [] →
      avg_credibility l = (codeScores l).sum / ((codeScores l).length : ℚ)) ∧
    (codeScores l = [] → avg_credibility l = 0.8) ∧
    ((∀ s ∈ codeScores l, 0 ≤ s ∧ s ≤ 1) →
      0 ≤ avg_credibility l ∧ avg_credibility l ≤ 1) := by
  refine ⟨?_, ?_, ?_⟩
  · intro h
    rw [avg_credibility_eq, if_pos (List.length_pos.mpr h)]
  · intro h
    rw [avg_credibility_eq, h]
    simp
  · intro h
    rcases eq_or_ne (codeScores l) [] with he | he
    · rw [avg_credibility_eq, he]
      norm_num
    · have hlen : 0 < (codeScores l).length := List.length_pos.mpr he
      have hlenQ : (0 : ℚ) < ((codeScores l).length : ℚ) := by exact_mod_cast hlen
      have hb := sum_bounds (codeScores l) h
      rw [avg_credibility_eq, if_pos hlen]
      constructor
      · exact div_nonneg hb.1 (le_of_lt hlenQ)
      · rw [div_le_one hlenQ]
        exact hb.2

/-- C4 witness: the amended statement evaluated at a one-interview list
with score 1 and at a malformed-assessment list. -/
theorem avg_credibility_spec_witness :
    avg_credibility [CredParse.parsed (some 1)] =
      (codeScores [CredParse.parsed (some 1)]).sum /
        ((codeScores [CredParse.parsed (some 1)]).length : ℚ) ∧
    avg_credibility [CredParse.malformed] = 0.8 ∧
    (0 ≤ avg_credibility [CredParse.parsed (some 1)] ∧
      avg_credibility [CredParse.parsed (some 1)] ≤ 1) :=
  ⟨(avg_credibility_spec [CredParse.parsed (some 1)]).1 (by simp [codeScores]),
   (avg_credibility_spec [CredParse.malformed]).2.1 (by simp [codeScores]),
   (avg_credibility_spec [CredParse.parsed (some 1)]).2.2 (by simp [codeScores])⟩

/-- C4 counterexample: an interview whose assessment parses to
`overall_credibility = 0` is skipped by the code's truthiness test, so the
code returns the fallback 0.8 where the claim's mean over parsed scores is
0 — the claimed equality fails. -/
theorem avg_credibility_truthiness_gap :
    avg_credibility [CredParse.parsed (some 0)] = 0.8 ∧
    spec_aggregate_credibility [CredParse.parsed (some 0)] = 0 ∧
    (0.8 : ℚ) ≠ 0 := by
  refine ⟨?_, ?_, by norm_num⟩
  · norm_num [avg_credibility, credStep]
  · norm_num [spec_aggregate_credibility, List.filterMap]

/-- C5 (amended): when the expert-roster generation for an analyst fails,
the roster call swallows the failure into an empty list, so the worker
creates no experts and no interviews, marks the analyst "completed" (not
its last-known status), and returns normally — nothing propagates to
sibling workers and the orchestrator's join is unaffected. -/
theorem roster_failure_behaviour (experts : List Expert) (pid aid : Nat)
    (a : Analyst) (e : String) (ports : Nat → InterviewGen) (now : Nat) :
    conduct_analyst_interviews experts pid aid a (Except.error e) ports now =
      (experts, [], { a with status := "completed" }) := by
  simp [conduct_analyst_interviews, generate_experts]

/-- C5 counterexample: with roster generation failing, the worker marks an
analyst that started "assigned" as "completed", so "the analyst keeps its
last-known status" fails on the code. -/
theorem roster_failure_marks_completed :
    sampleAnalyst.status = "assigned" ∧
    (conduct_analyst_interviews [] 1 0 sampleAnalyst
        (Except.error "GenerationError") (fun _ => failGen) 0).2.2.status = "completed" ∧
    (conduct_analyst_interviews [] 1 0 sampleAnalyst
        (Except.error "GenerationError") (fun _ => failGen) 0).2.2.status ≠
      sampleAnalyst.status := by
  decide

/-- C6: the review gate returns the project exactly as it read it (it never
writes), and for a project still "reviewing" after the full wait the
orchestrator's step 4 compiles the report and ends with status "completed",
with exactly one transition into "completed" across its commits. -/
theorem review_timeout_completion (p : Project) (ivs : List Interview)
    (gen : Option String) (fuel : Nat) :
    wait_for_human_review p fuel = p ∧
    (p.status = "reviewing" →
      (finish_after_review p ivs gen).1.status = "completed" ∧
      completedTransitions (finish_after_review p ivs gen).2 = 1) := by
  constructor
  · induction fuel with
    | zero => rfl
    | succ n ih =>
      by_cases h : p.status = "reviewing" <;> simp [wait_for_human_review, h, ih]
  · intro h
    have hns : p.status ≠ "stopped" := by rw [h]; decide
    have hgs := generate_final_report_wf_status p ivs gen
    constructor
    · simp [finish_after_review, hns]
    · simp only [finish_after_review, if_pos hns]
      simp [completedTransitions, h, hgs]

/-- C6 witness: the statement evaluated on a reviewing project with a
30-poll wait, no interviews and a failing report generation. -/
theorem review_timeout_completion_witness :
    wait_for_human_review sampleReviewing 30 = sampleReviewing ∧
    ((finish_after_review sampleReviewing [] none).1.status = "completed" ∧
      completedTransitions (finish_after_review sampleReviewing [] none).2 = 1) :=
  ⟨(review_timeout_completion sampleReviewing [] none 30).1,
   (review_timeout_completion sampleReviewing [] none 30).2 (by decide)⟩

/-- C7: if question generation (step 2) or answer generation (step 3)
raises, the interview executor's handler sets the interview status to
"error"; the executor is a total function, so the failure never escapes to
the calling analyst worker or touches sibling interviews. -/
theorem interview_step_failure_sets_error (iv : Interview) (e : String)
    (gA : Except String (List Response)) (gC : Except String CredResult)
    (qs : List String) (now : Nat) :
    (conduct_single_interview iv
        { genQ := Except.error e, genA := gA, genC := gC } now).status = "error" ∧
    (conduct_single_interview iv
        { genQ := Except.ok qs, genA := Except.error e, genC := gC } now).status =
      "error" :=
  ⟨rfl, rfl⟩

/-- C8 (amended): `human_notes` is written by the intervention interface
whenever the request carries non-empty notes, in any project status; empty
notes leave it unchanged. -/
theorem human_intervention_notes (p : Project) (notes action : String) :
    (human_intervention p notes action).human_notes =
      (if notes = "" then p.human_notes else some notes) := by
  by_cases hn : notes = "" <;>
    by_cases ha : action = "approve" <;>
      by_cases hs : action = "stop" <;>
        by_cases hr : p.status = "reviewing" <;>
          simp [human_intervention, hn, ha, hs, hr]

/-- C8 counterexample: an intervention with notes against a project in
status "analyzing" writes `human_notes`, so "notes are written only while
reviewing" fails on the code. -/
theorem notes_written_outside_reviewing :
    sampleAnalyzing.status ≠ "reviewing" ∧
    sampleAnalyzing.human_notes = none ∧
    (human_intervention sampleAnalyzing "nota" "").human_notes = some "nota" := by
  decide

/-- C9: the status query's progress equals completed/total × 100 clamped to
at most 100 for a non-empty interview list, is 0 for zero interviews, gives
200/3 for 2 of 3 completed, and never exceeds 100. -/
theorem api_total_progress_spec (l : List String) :
    (l ≠ [] → api_total_progress l =
      min 100 ((completedCount l : ℚ) / (l.length : ℚ) * 100)) ∧
    api_total_progress [] = 0 ∧
    api_total_progress ["completed", "completed", "scheduled"] = 200 / 3 ∧
    api_total_progress l ≤ 100 := by
  refine ⟨?_, ?_, ?_, min_le_left _ _⟩
  · intro h
    have h1 : (1 : ℚ) ≤ (l.length : ℚ) := by
      exact_mod_cast Nat.one_le_iff_ne_zero.mpr (by simpa using h)
    rw [api_total_progress, max_eq_right h1]
  · have h1 : completedCount [] = 0 := rfl
    rw [api_total_progress, h1]
    norm_num
  · have h1 : completedCount ["completed", "completed", "scheduled"] = 2 := rfl
    have h2 : (["completed", "completed", "scheduled"] : List String).length = 3 := rfl
    rw [api_total_progress, h1, h2]
    norm_num

/-- C9 witness: the non-empty case evaluated at a single completed
interview. -/
theorem api_total_progress_spec_witness :
    api_total_progress ["completed"] =
      min 100 ((completedCount ["completed"] : ℚ) /
        ((["completed"] : List String).length : ℚ) * 100) :=
  (api_total_progress_spec ["completed"]).1 (by simp)

/-- C10: starting the workflow with a project id absent from the store
returns the store unchanged — no project, analyst, expert or interview
record is created, deleted or mutated. -/
theorem workflow_missing_project_no_effect (db : DB) (pid : Nat)
    (ports : WorkflowPorts) (fuel now : Nat)
    (h : db.projects.find? (fun pr => pr.1 = pid) = none) :
    start_research_workflow db pid ports fuel now = db := by
  simp [start_research_workflow, h]

/-- C10 witness: the statement evaluated on the empty store. -/
theorem workflow_missing_project_no_effect_witness :
    start_research_workflow emptyDB 1 nullPorts 0 0 = emptyDB :=
  workflow_missing_project_no_effect emptyDB 1 nullPorts 0 0 rfl

end AINews


